import Mathlib

/-!
Verification development for the QA-testing PR reconciler
(src/main.py, src/graphql.py, src/config.py).

The development has two layers:

* a call-level embedding of the individual graphql.py helpers
  (regex extraction, reference parsing, pagination loops, error
  handling), translated function by function from src/graphql.py;

* a run-level embedding of `notify_change_status` / `main`
  (src/main.py), in which each graphql helper's *result* is a field of
  an explicit `World` and the side-effecting calls
  (`update_issue_status_to_qa_testing`, `add_issue_comment`) are
  recorded as an `Effect` trace.  The run-level model covers runs in
  which no transport failure occurs (transport failures are settled at
  the call level).
-/

/-! ## Character classes of the regexes in src/graphql.py

Python `\w` is modelled as ASCII `[A-Za-z0-9_]` (the repository's
references are ASCII), and the regex classes `[\w\-]` and `\d` become
the Boolean predicates below. -/

/-- Model of the regex character class `[\w\-]`. -/
def isRefChar (c : Char) : Bool :=
  c.isAlphanum || c = '_' || c = '-'

/-- Greedy run of a character class: returns the maximal matching
run and the remaining characters.  Models a greedy `[...]+` / `[...]*`
step of the Python regex engine. -/
def spanP (p : Char → Bool) : List Char → List Char × List Char
  | [] => ([], [])
  | c :: cs =>
    if p c then
      let s := spanP p cs
      (c :: s.1, s.2)
    else ([], c :: cs)

/-! ## extract_referenced_issues_from_text (src/graphql.py:68-71)

Pattern: `(?:[\w\-]+\/[\w\-]+#\d+|[\w\-]+#\d+|#\d+)`, searched with
`re.findall` (leftmost, non-overlapping, alternatives tried in order).
Because the classes `[\w\-]` and `\d` contain neither `/` nor `#`, the
regex engine's greedy matching with backtracking coincides with
maximal-munch runs, which is what `spanP` computes: a run of class
characters can only be followed by the required delimiter at its
maximal end. -/

/-- First alternative `[\w\-]+\/[\w\-]+#\d+`, attempted at the start
of `cs`; on success returns the matched characters and the rest. -/
def matchCrossOrg (cs : List Char) : Option (List Char × List Char) :=
  let s1 := spanP isRefChar cs
  if s1.1 = [] then none else
  match s1.2 with
  | '/' :: r2 =>
    let s2 := spanP isRefChar r2
    if s2.1 = [] then none else
    match s2.2 with
    | '#' :: r4 =>
      let s3 := spanP Char.isDigit r4
      if s3.1 = [] then none
      else some (s1.1 ++ '/' :: s2.1 ++ '#' :: s3.1, s3.2)
    | _ => none
  | _ => none

/-- Second alternative `[\w\-]+#\d+`. -/
def matchSameOrg (cs : List Char) : Option (List Char × List Char) :=
  let s1 := spanP isRefChar cs
  if s1.1 = [] then none else
  match s1.2 with
  | '#' :: r2 =>
    let s2 := spanP Char.isDigit r2
    if s2.1 = [] then none
    else some (s1.1 ++ '#' :: s2.1, s2.2)
  | _ => none

/-- Third alternative `#\d+`. -/
def matchBare (cs : List Char) : Option (List Char × List Char) :=
  match cs with
  | '#' :: r =>
    let s := spanP Char.isDigit r
    if s.1 = [] then none
    else some ('#' :: s.1, s.2)
  | _ => none

/-- One attempt of the whole alternation at a fixed text position,
alternatives in the pattern's order. -/
def tryMatchRef (cs : List Char) : Option (List Char × List Char) :=
  match matchCrossOrg cs with
  | some r => some r
  | none =>
    match matchSameOrg cs with
    | some r => some r
    | none => matchBare cs

/-- The `re.findall` scan: try a match at each position from the left;
on success emit the token and resume after it (non-overlapping),
otherwise advance one character.  The fuel argument (instantiated with
the text length, which every step strictly decreases) only makes the
recursion structural. -/
def scanRefsFuel : Nat → List Char → List (List Char)
  | 0, _ => []
  | _, [] => []
  | fuel + 1, c :: rest =>
    match tryMatchRef (c :: rest) with
    | some (tok, r) => tok :: scanRefsFuel fuel r
    | none => scanRefsFuel fuel rest

/-- Embedding of `extract_referenced_issues_from_text`
(src/graphql.py:68-71). -/
def extract_referenced_issues_from_text (s : String) : List String :=
  (scanRefsFuel s.data.length s.data).map String.mk

/-! ## resolve_issue_reference (src/graphql.py:106-141)

The parsing step applies
`re.match(r"(?:(?P<org>[\w\-]+)/(?P<repo>[\w\-]+))?#(?P<number>\d+)", reference)`
(anchored at position 0 only), then defaults
`org = match.group("org") or config.repository_owner` and
`repo = match.group("repo") or config.repository_name`; on a match the
issue is looked up by (org, repo, number).  On no match, or on a
failed lookup, the function returns `None`. -/

/-- Digits of the matched `\d+` group converted by Python `int`. -/
def digitsToNat (ds : List Char) : Nat :=
  ds.foldl (fun n c => n * 10 + (c.toNat - '0'.toNat)) 0

/-- The anchored match of `(?:(org)/(repo))?#(number)` at position 0:
returns the optional (org, repo) group and the digit group.  The
optional group is attempted first (greedy `?`); as for the extractor,
maximal-munch runs coincide with the engine's backtracking search
because `[\w\-]` contains neither `/` nor `#`. -/
def matchResolveRegex (cs : List Char) :
    Option (Option (List Char × List Char) × List Char) :=
  let s1 := spanP isRefChar cs
  let withGroup : Option (Option (List Char × List Char) × List Char) :=
    if s1.1 = [] then none else
    match s1.2 with
    | '/' :: r2 =>
      let s2 := spanP isRefChar r2
      if s2.1 = [] then none else
      match s2.2 with
      | '#' :: r4 =>
        let s3 := spanP Char.isDigit r4
        if s3.1 = [] then none else some (some (s1.1, s2.1), s3.1)
      | _ => none
    | _ => none
  match withGroup with
  | some res => some res
  | none =>
    match cs with
    | '#' :: r =>
      let s := spanP Char.isDigit r
      if s.1 = [] then none else some (none, s.1)
    | _ => none

/-- The parsing-and-defaulting prefix of `resolve_issue_reference`
(src/graphql.py:108-114): yields the (org, repo, number) triple handed
to the issue lookup, or `none` when the regex does not match. -/
def resolve_issue_reference_parse (owner repoName : String)
    (reference : String) : Option (String × String × Nat) :=
  match matchResolveRegex reference.data with
  | none => none
  | some (grp, ds) =>
    let org := match grp with
      | some (o, _) => String.mk o
      | none => owner
    let repo := match grp with
      | some (_, r) => String.mk r
      | none => repoName
    some (org, repo, digitsToNat ds)

/-- A resolved issue as returned by `resolve_issue_reference`
(id, number, state); `state` is the string reported by the API. -/
structure IssueData where
  id : String
  number : Nat
  state : String
deriving Repr, DecidableEq

/-- Embedding of `resolve_issue_reference` (src/graphql.py:106-141):
parse, then look the issue up; `lookup` abstracts the GraphQL issue
query (returning `none` when the issue is not found). -/
def resolve_issue_reference
    (lookup : String → String → Nat → Option IssueData)
    (owner repoName reference : String) : Option IssueData :=
  match resolve_issue_reference_parse owner repoName reference with
  | none => none
  | some (org, repo, n) => lookup org repo n

/-- Embedding of `get_issue_state` (src/graphql.py:77-100): the
response is `none` for a transport/shape exception (caught: the
function returns `None`) and otherwise carries `issue.get("state")`.
This helper exists in src/graphql.py but is never called from
src/main.py. -/
def get_issue_state (resp : Option (Option String)) : Option String :=
  match resp with
  | none => none
  | some s => s

/-! ## Call-level pagination loops and their error handling
(src/graphql.py:41-62, 147-168, 273-313, 382-416)

Each loop is modelled over the finite sequence of responses the server
gives to its successive requests.  A response is either a transport
failure (a raised `requests` exception), a payload whose top level
contains `"errors"`, or a page of nodes together with `hasNextPage`.
An uncaught exception is modelled as `Except.error`. -/

/-- One GraphQL response to a page request. -/
inductive GqlResp (α : Type) where
  | transport
  | gqlErrors
  | ok (nodes : α) (hasNext : Bool)
deriving Repr

/-- A merged pull request as returned by
`get_recent_merged_prs_in_dev`. -/
structure PRData where
  number : Nat
  url : String
  title : String
  bodyText : String
deriving Repr, DecidableEq

/-- One issue comment as returned by `get_issue_comments`. -/
structure CommentData where
  body : String
deriving Repr, DecidableEq

/-- The pagination loop of `get_recent_merged_prs_in_dev`
(src/graphql.py:41-62): the whole loop sits inside
`try ... except requests.RequestException: return []`, so a transport
failure discards everything collected so far and yields `[]`; an
`"errors"` payload breaks out of the loop keeping the pages collected
so far; otherwise nodes accumulate until `hasNextPage` is false. -/
def mergedPRsLoop : List (GqlResp (List PRData)) → List PRData → List PRData
  | [], acc => acc
  | .transport :: _, _ => []
  | .gqlErrors :: _, acc => acc
  | .ok nodes hasNext :: rest, acc =>
    if hasNext then mergedPRsLoop rest (acc ++ nodes) else acc ++ nodes

/-- Embedding of `get_recent_merged_prs_in_dev` (src/graphql.py:12-62)
over its response sequence. -/
def get_recent_merged_prs_in_dev_call
    (resps : List (GqlResp (List PRData))) : List PRData :=
  mergedPRsLoop resps []

/-- The pagination loop of `get_issue_comments`
(src/graphql.py:401-416).  This function has NO try/except: a
transport failure raises out of the loop (modelled as `Except.error`)
and propagates to the caller — `notify_change_status` and `main`
(src/main.py) install no handler either. -/
def commentsLoop :
    List (Option (List CommentData × Bool)) → List CommentData →
    Except Unit (List CommentData)
  | [], acc => Except.ok acc
  | none :: _, _ => Except.error ()
  | some (nodes, hasNext) :: rest, acc =>
    if hasNext then commentsLoop rest (acc ++ nodes) else Except.ok (acc ++ nodes)

/-- Embedding of `get_issue_comments` (src/graphql.py:382-416) over
its response sequence (`none` = transport failure on that call). -/
def get_issue_comments_call
    (resps : List (Option (List CommentData × Bool))) :
    Except Unit (List CommentData) :=
  commentsLoop resps []

/-- A project as listed by `get_project_id_by_title`. -/
structure ProjectNode where
  id : String
  title : String
deriving Repr, DecidableEq

/-- Embedding of `get_project_id_by_title` (src/graphql.py:147-168):
a single request with NO try/except (a transport failure propagates),
then a linear scan for an exact title match. -/
def get_project_id_by_title_call (resp : Option (List ProjectNode))
    (projectTitle : String) : Except Unit (Option String) :=
  match resp with
  | none => Except.error ()
  | some projects =>
    Except.ok ((projects.find? (fun p => p.title == projectTitle)).map ProjectNode.id)

/-! ## The pagination cursor walker (src/graphql.py:401-416)

The cursor-threading loop shared (inlined) by
`get_recent_merged_prs_in_dev`, `get_project_items` and
`get_issue_comments`: call the fetch with cursor `none`, then with the
previously returned cursor, accumulating nodes, until `hasNextPage` is
false.  The extra `Nat` result counts fetch calls; `fuel` bounds the
number of iterations (the Python loop is unbounded) and is irrelevant
whenever it exceeds the number of calls actually made. -/

/-- Walker loop: state is remaining fuel, current cursor, accumulated
nodes and calls made so far. -/
def paginateAux {α : Type}
    (fetch : Option String → List α × Option String × Bool) :
    Nat → Option String → List α → Nat → List α × Nat
  | 0, _, acc, calls => (acc, calls)
  | fuel + 1, cursor, acc, calls =>
    let r := fetch cursor
    let acc := acc ++ r.1
    if r.2.2 then paginateAux fetch fuel r.2.1 acc (calls + 1)
    else (acc, calls + 1)

/-- The pagination cursor walker: start with cursor `none`, no nodes,
no calls. -/
def paginate {α : Type}
    (fetch : Option String → List α × Option String × Bool)
    (fuel : Nat) : List α × Nat :=
  paginateAux fetch fuel none [] 0

/-- A synthetic paged source of 3 pages of sizes 50/50/7, the nodes
being 0..106 in page order. -/
def syntheticFetch : Option String → List Nat × Option String × Bool
  | none => (List.range 50, some "c1", true)
  | some "c1" => ((List.range 50).map (fun n => n + 50), some "c2", true)
  | some "c2" => ((List.range 7).map (fun n => n + 100), none, false)
  | some _ => ([], none, false)

/-! ## Run-level model of notify_change_status (src/main.py:16-139)

`World` carries, for a run without transport failures, the result each
graphql helper returns at the moment src/main.py calls it, plus the
external state the run's own side effects change (comments, board
status).  `liveState` records, for each issue id, the live open/closed
state the issue has at the point a mutating action on it would be
taken — the value `get_issue_state` (src/graphql.py:77-100) would
report there.  src/main.py never calls that helper, so no definition
below reads this field. -/

/-- The `content { ... on Issue { id ... } }` part of a project item;
`none` models a missing/empty (falsy) `content`. -/
structure ItemContent where
  id : String
deriving Repr, DecidableEq

/-- One project-board item from `get_project_items`
(src/graphql.py:244-313): the board-row id and the wrapped issue. -/
structure ItemData where
  id : String
  content : Option ItemContent
deriving Repr, DecidableEq

/-- The environment of one run. -/
structure World where
  mergedPRs : List PRData
  projectId : Option String
  statusFieldId : Option String
  statusOptionId : Option String
  items : List ItemData
  resolveIssue : String → Option IssueData
  issueComments : String → List CommentData
  issueStatus : String → Option String
  updateResult : String → Bool
  liveState : String → String
  dryRun : Bool

/-- A side-effecting API call recorded by the run: a
`updateProjectV2ItemFieldValue` mutation (keyed by the two arguments
that vary per pair — the board item id and the option id; the
run-constant project id and field id are elided) or an `addComment`
mutation. -/
inductive Effect where
  | updateStatus (itemId : String) (optionId : String)
  | addComment (issueId : String) (body : String)
deriving Repr, DecidableEq

/-- Boolean prefix test on character lists. -/
def isPrefixB : List Char → List Char → Bool
  | [], _ => true
  | _ :: _, [] => false
  | a :: as, b :: bs => a = b && isPrefixB as bs

/-- Boolean substring-containment test on character lists: the Python
`in` operator on strings. -/
def isInfixB (n : List Char) : List Char → Bool
  | [] => isPrefixB n []
  | c :: rest => isPrefixB n (c :: rest) || isInfixB n rest

/-- Embedding of `check_comment_exists` (src/main.py:7-13): true when
some existing comment's body CONTAINS the candidate text (`in`, not
equality). -/
def check_comment_exists (w : World) (issueId commentText : String) : Bool :=
  (w.issueComments issueId).any (fun c => isInfixB commentText.data c.body.data)

/-- The deterministic comment template of src/main.py:98-101. -/
def commentText (prNumber : Nat) (prUrl : String) : String :=
  "Testing will be available in 15 minutes (triggered by [PR #"
    ++ toString prNumber ++ "](" ++ prUrl ++ "))"

/-- The item scan of src/main.py:113-117 (`for item in items: if
item.get("content") and item["content"].get("id") == issue_id: ...;
break`): the first item whose wrapped issue id equals the resolved
issue's id. -/
def findMatchingItem (items : List ItemData) (issueId : String) :
    Option ItemData :=
  items.find? (fun it =>
    match it.content with
    | some c => c.id == issueId
    | none => false)

/-- How the external world changes when an effect is performed
(modelled from the API's semantics, not from repository code): an
`addComment` appends the comment to the issue's comment list; a
successful `updateStatus` sets the named status of the issue wrapped by
the mutated board item to "QA Testing" (the run only ever mutates with
the option id resolved for the "QA Testing" option); a failed mutation
changes nothing. -/
def applyEffect (w : World) : Effect → World
  | .addComment i b =>
    { w with issueComments := fun j =>
        if j = i then w.issueComments j ++ [⟨b⟩] else w.issueComments j }
  | .updateStatus itemId _ =>
    if w.updateResult itemId then
      match (w.items.find? (fun it => it.id == itemId)).bind ItemData.content with
      | some c =>
        { w with issueStatus := fun j =>
            if j = c.id then some "QA Testing" else w.issueStatus j }
      | none => w
    else w

/-- Embedding of the body of the inner loop of `notify_change_status`
(src/main.py:83-139), for one referenced-issue token of one PR:
resolve the reference; skip unless the resolved state is "OPEN"; skip
when the comment already exists; read the current status; if it is not
"QA Testing", mutate the first matching board item and comment only on
a truthy mutation result; otherwise just comment.  Returns the world
after the pair's effects and the effects in order. -/
def processRef (optId : String) (items : List ItemData) (pr : PRData)
    (w : World) (ref : String) : World × List Effect :=
  match w.resolveIssue ref with
  | none => (w, [])
  | some issue =>
    if issue.state ≠ "OPEN" then (w, [])
    else
      let ctext := commentText pr.number pr.url
      if check_comment_exists w issue.id ctext then (w, [])
      else
        if w.issueStatus issue.id ≠ some "QA Testing" then
          match findMatchingItem items issue.id with
          | none => (w, [])
          | some item =>
            let e1 := Effect.updateStatus item.id optId
            let w1 := applyEffect w e1
            if w.updateResult item.id then
              let e2 := Effect.addComment issue.id ctext
              (applyEffect w1 e2, [e1, e2])
            else (w1, [e1])
        else
          let e := Effect.addComment issue.id ctext
          (applyEffect w e, [e])

/-- The `for issue_ref in linked_issues` loop (src/main.py:83),
threading the world and concatenating effects in order. -/
def processRefs (optId : String) (items : List ItemData) (pr : PRData)
    (w : World) : List String → World × List Effect
  | [] => (w, [])
  | r :: rs =>
    let p := processRef optId items pr w r
    let q := processRefs optId items pr p.1 rs
    (q.1, p.2 ++ q.2)

/-- One iteration of the `for pr in merged_prs` loop
(src/main.py:69-81): extract the references from the PR body and
process each; an empty extraction is a `continue`. -/
def processPR (optId : String) (items : List ItemData) (w : World)
    (pr : PRData) : World × List Effect :=
  processRefs optId items pr w (extract_referenced_issues_from_text pr.bodyText)

/-- The outer PR loop. -/
def processPRs (optId : String) (items : List ItemData) (w : World) :
    List PRData → World × List Effect
  | [] => (w, [])
  | pr :: prs =>
    let p := processPR optId items w pr
    let q := processPRs optId items p.1 prs
    (q.1, p.2 ++ q.2)

/-- Embedding of `notify_change_status` (src/main.py:16-139): return
with no effects when there are no merged PRs or when the project id,
status field id or "QA Testing" option id fails to resolve (the `if
not ...: return` guards of src/main.py:24-57); otherwise fetch the
project items once and run the PR loop. -/
def notify_change_status (w : World) : World × List Effect :=
  if w.mergedPRs = [] then (w, [])
  else
    match w.projectId with
    | none => (w, [])
    | some _ =>
      match w.statusFieldId with
      | none => (w, [])
      | some _ =>
        match w.statusOptionId with
        | none => (w, [])
        | some optId => processPRs optId w.items w w.mergedPRs

/-- Embedding of `main` (src/main.py:142-147): when `config.dry_run`
is set it only logs "DRY RUN MODE ON!"; `notify_change_status` is
called unconditionally either way. -/
def mainRun (w : World) : World × List Effect :=
  notify_change_status w

/-- Embedding of the `dry_run` configuration parsing
(src/config.py:9): true exactly when the `INPUT_DRY_RUN` environment
variable is the string "True". -/
def config_dry_run (env : Option String) : Bool :=
  env == some "True"

/-! ## Concrete scenarios

Small closed worlds used to evaluate the model at concrete inputs:
one merged PR #42 whose body references issue #10 ("Q10"), which is on
the board as item "I10". -/

/-- Issue #10, reported OPEN by the resolution read. -/
def issue10 : IssueData := ⟨"Q10", 10, "OPEN"⟩

/-- Issue #11, reported CLOSED by the resolution read. -/
def issue11 : IssueData := ⟨"Q11", 11, "CLOSED"⟩

/-- Merged PR #42 referencing issue #10. -/
def pr42 : PRData := ⟨42, "u42", "t42", "Closes #10"⟩

/-- Merged PR #42 with the same reference written twice. -/
def pr1010 : PRData := ⟨42, "u42", "t42", "Fixes #10 and #10"⟩

/-- The board item wrapping issue #10. -/
def item10 : ItemData := ⟨"I10", some ⟨"Q10"⟩⟩

/-- A second board item also wrapping issue #10. -/
def item10b : ItemData := ⟨"I10b", some ⟨"Q10"⟩⟩

/-- Base world: PR #42 references the open issue #10, which has no
comments yet, is not in "QA Testing", sits on the board as "I10", and
whose mutation succeeds.  Its live state at the point of action is
CLOSED (it closed between the resolution read and the action). -/
def wBase : World :=
  { mergedPRs := [pr42], projectId := some "P", statusFieldId := some "F",
    statusOptionId := some "O", items := [item10],
    resolveIssue := fun r => if r = "#10" then some issue10 else none,
    issueComments := fun _ => [], issueStatus := fun _ => none,
    updateResult := fun _ => true, liveState := fun _ => "CLOSED",
    dryRun := false }

/-- Base world with the dry-run flag set. -/
def wDry : World := { wBase with dryRun := true }

/-- World whose single reference `#11` resolves to a CLOSED issue. -/
def wClosed : World :=
  { wBase with resolveIssue := fun r => if r = "#11" then some issue11 else none }

/-- World in which issue #10 is already in "QA Testing". -/
def wQA : World :=
  { wBase with issueStatus := fun i => if i = "Q10" then some "QA Testing" else none }

/-- World in which the status mutation returns no confirming payload. -/
def wFail : World := { wBase with updateResult := fun _ => false }

/-- World with the duplicated reference and a failing mutation. -/
def wC10 : World :=
  { wBase with mergedPRs := [pr1010], updateResult := fun _ => false }

/-- Items list with two items wrapping the same issue #10. -/
def itemsMulti : List ItemData := [item10, item10b]

/-- World with two board items for issue #10 and a failing mutation. -/
def wMulti : World :=
  { wBase with items := itemsMulti, updateResult := fun _ => false }

/-- A live-state function reporting every issue OPEN. -/
def fOpen : String → String := fun _ => "OPEN"

/-- An issue lookup that finds every (org, repo, number). -/
def alwaysFoundLookup : String → String → Nat → Option IssueData :=
  fun _ _ n => some ⟨"X", n, "OPEN"⟩

/-- Replace the live-state-at-action function of a world. -/
def setLive (w : World) (f : String → String) : World :=
  { w with liveState := f }

/-- Whether an effect is a status-field mutation. -/
def isUpdateEffect : Effect → Bool
  | .updateStatus _ _ => true
  | .addComment _ _ => false

/-- Comment growth between two worlds: every issue's comment list in
`w'` extends the one in `w`. -/
def commentsLe (w w' : World) : Prop :=
  ∀ i, ∃ s, w'.issueComments i = w.issueComments i ++ s

/-! ## Helper lemmas

Monotonicity of the comment store under the run's own effects, the
behaviour of the duplicate-comment gate under comment growth, and an
exhaustive case analysis of `processRef`. -/

/-- A character list is a prefix of itself under the Boolean test. -/
theorem isPrefixB_refl : ∀ l : List Char, isPrefixB l l = true := by
  intro l
  induction l with
  | nil => rfl
  | cons c cs ih => simp [isPrefixB, ih]

/-- A character list contains itself as a substring. -/
theorem isInfixB_self : ∀ l : List Char, isInfixB l l = true := by
  intro l
  cases l with
  | nil => rfl
  | cons c cs => simp [isInfixB, isPrefixB_refl]

theorem commentsLe_refl (w : World) : commentsLe w w := by
  intro i
  exact ⟨[], by simp⟩

theorem commentsLe_trans {w v u : World} (h1 : commentsLe w v) (h2 : commentsLe v u) :
    commentsLe w u := by
  intro i
  obtain ⟨s1, hs1⟩ := h1 i
  obtain ⟨s2, hs2⟩ := h2 i
  exact ⟨s1 ++ s2, by rw [hs2, hs1, List.append_assoc]⟩

/-- An effect never removes comments: it only appends (or leaves the
comment store unchanged). -/
theorem applyEffect_commentsLe (w : World) (e : Effect) :
    commentsLe w (applyEffect w e) := by
  cases e with
  | addComment i b =>
    intro j
    by_cases h : j = i
    · exact ⟨[⟨b⟩], by simp [applyEffect, h]⟩
    · exact ⟨[], by simp [applyEffect, h]⟩
  | updateStatus itemId o =>
    intro j
    refine ⟨[], ?_⟩
    simp only [applyEffect]
    split
    · split <;> simp
    · simp

/-- The duplicate-comment gate stays triggered once triggered: comment
growth preserves a positive containment check. -/
theorem check_mono {w w' : World} {i t : String}
    (h : check_comment_exists w i t = true) (hle : commentsLe w w') :
    check_comment_exists w' i t = true := by
  obtain ⟨s, hs⟩ := hle i
  unfold check_comment_exists at h ⊢
  rw [hs, List.any_append, h]
  rfl

/-- After posting a comment with body `t`, the gate for `t` on that
issue is triggered (the posted body contains itself). -/
theorem check_after_add (w : World) (i t : String) :
    check_comment_exists (applyEffect w (Effect.addComment i t)) i t = true := by
  unfold check_comment_exists applyEffect
  simp [List.any_append, isInfixB_self]

/-- Exhaustive case analysis of `processRef`: either the pair is
skipped at one of the gates with no effects, or the mutation path runs
(comment only on a truthy mutation result), or the already-on-target
path posts just the comment. -/
theorem processRef_cases (optId : String) (items : List ItemData) (pr : PRData)
    (w : World) (ref : String) :
    (processRef optId items pr w ref = (w, []) ∧
      (w.resolveIssue ref = none ∨
       (∃ issue, w.resolveIssue ref = some issue ∧ issue.state ≠ "OPEN") ∨
       (∃ issue, w.resolveIssue ref = some issue ∧
         check_comment_exists w issue.id (commentText pr.number pr.url) = true) ∨
       (∃ issue, w.resolveIssue ref = some issue ∧
         w.issueStatus issue.id ≠ some "QA Testing" ∧
         findMatchingItem items issue.id = none))) ∨
    (∃ issue it,
      w.resolveIssue ref = some issue ∧ issue.state = "OPEN" ∧
      check_comment_exists w issue.id (commentText pr.number pr.url) = false ∧
      w.issueStatus issue.id ≠ some "QA Testing" ∧
      findMatchingItem items issue.id = some it ∧
      ((w.updateResult it.id = false ∧
        processRef optId items pr w ref =
          (applyEffect w (Effect.updateStatus it.id optId),
           [Effect.updateStatus it.id optId])) ∨
       (w.updateResult it.id = true ∧
        processRef optId items pr w ref =
          (applyEffect (applyEffect w (Effect.updateStatus it.id optId))
             (Effect.addComment issue.id (commentText pr.number pr.url)),
           [Effect.updateStatus it.id optId,
            Effect.addComment issue.id (commentText pr.number pr.url)])))) ∨
    (∃ issue,
      w.resolveIssue ref = some issue ∧ issue.state = "OPEN" ∧
      check_comment_exists w issue.id (commentText pr.number pr.url) = false ∧
      w.issueStatus issue.id = some "QA Testing" ∧
      processRef optId items pr w ref =
        (applyEffect w (Effect.addComment issue.id (commentText pr.number pr.url)),
         [Effect.addComment issue.id (commentText pr.number pr.url)])) := by
  cases hres : w.resolveIssue ref with
  | none => exact Or.inl ⟨by simp [processRef, hres], Or.inl rfl⟩
  | some issue =>
    by_cases hst : issue.state = "OPEN"
    · by_cases hchk : check_comment_exists w issue.id (commentText pr.number pr.url) = true
      · exact Or.inl ⟨by simp [processRef, hres, hst, hchk],
          Or.inr (Or.inr (Or.inl ⟨issue, rfl, hchk⟩))⟩
      · by_cases hqa : w.issueStatus issue.id = some "QA Testing"
        · exact Or.inr (Or.inr ⟨issue, rfl, hst, by simpa using hchk, hqa,
            by simp [processRef, hres, hst, hchk, hqa]⟩)
        · cases hfind : findMatchingItem items issue.id with
          | none =>
            exact Or.inl ⟨by simp [processRef, hres, hst, hchk, hqa, hfind],
              Or.inr (Or.inr (Or.inr ⟨issue, rfl, hqa, hfind⟩))⟩
          | some it =>
            by_cases hup : w.updateResult it.id = true
            · exact Or.inr (Or.inl ⟨issue, it, rfl, hst, by simpa using hchk, hqa,
                hfind, Or.inr ⟨hup, by simp [processRef, hres, hst, hchk, hqa, hfind, hup]⟩⟩)
            · exact Or.inr (Or.inl ⟨issue, it, rfl, hst, by simpa using hchk, hqa,
                hfind, Or.inl ⟨by simpa using hup,
                  by simp [processRef, hres, hst, hchk, hqa, hfind, hup]⟩⟩)
    · exact Or.inl ⟨by simp [processRef, hres, hst], Or.inr (Or.inl ⟨issue, rfl, hst⟩)⟩

theorem processRef_commentsLe (optId : String) (items : List ItemData) (pr : PRData)
    (w : World) (ref : String) :
    commentsLe w (processRef optId items pr w ref).1 := by
  rcases processRef_cases optId items pr w ref with ⟨heq, _⟩ |
    ⟨issue, it, _, _, _, _, _, (⟨_, heq⟩ | ⟨_, heq⟩)⟩ | ⟨issue, _, _, _, _, heq⟩
  · rw [heq]; exact commentsLe_refl w
  · rw [heq]
    exact applyEffect_commentsLe w (Effect.updateStatus it.id optId)
  · rw [heq]
    exact commentsLe_trans (w := w) (applyEffect_commentsLe w _)
      (applyEffect_commentsLe (applyEffect w (Effect.updateStatus it.id optId))
        (Effect.addComment issue.id (commentText pr.number pr.url)))
  · rw [heq]
    exact applyEffect_commentsLe w (Effect.addComment issue.id (commentText pr.number pr.url))

/-- A pair processing posts a comment only for its own resolved issue,
with its own PR's template, and only when the gate was negative on
entry. -/
theorem processRef_mem_addComment {optId : String} {items : List ItemData}
    {pr : PRData} {w : World} {ref : String} {i t : String}
    (h : Effect.addComment i t ∈ (processRef optId items pr w ref).2) :
    ∃ issue, w.resolveIssue ref = some issue ∧ i = issue.id ∧
      t = commentText pr.number pr.url ∧ check_comment_exists w i t = false := by
  rcases processRef_cases optId items pr w ref with ⟨heq, _⟩ |
    ⟨issue, it, hres, _, hchk, _, _, (⟨_, heq⟩ | ⟨_, heq⟩)⟩ |
    ⟨issue, hres, _, hchk, _, heq⟩
  · rw [heq] at h; simp at h
  · rw [heq] at h; simp at h
  · rw [heq] at h
    simp at h
    obtain ⟨hi, ht⟩ := h
    subst hi; subst ht
    exact ⟨issue, hres, rfl, rfl, hchk⟩
  · rw [heq] at h
    simp at h
    obtain ⟨hi, ht⟩ := h
    subst hi; subst ht
    exact ⟨issue, hres, rfl, rfl, hchk⟩

/-- When the gate for (issue, template) is already triggered, a pair
processing never posts that comment. -/
theorem processRef_gated {optId : String} {items : List ItemData} {pr : PRData}
    {w : World} {ref : String} {i t : String}
    (hc : check_comment_exists w i t = true) :
    Effect.addComment i t ∉ (processRef optId items pr w ref).2 := by
  intro h
  obtain ⟨issue, _, _, _, hfalse⟩ := processRef_mem_addComment h
  rw [hfalse] at hc
  cases hc

/-- A posted comment is in the comment store of the world a pair
processing returns. -/
theorem processRef_comment_recorded {optId : String} {items : List ItemData}
    {pr : PRData} {w : World} {ref : String} {i t : String}
    (h : Effect.addComment i t ∈ (processRef optId items pr w ref).2) :
    check_comment_exists (processRef optId items pr w ref).1 i t = true := by
  rcases processRef_cases optId items pr w ref with ⟨heq, _⟩ |
    ⟨issue, it, hres, _, hchk, _, _, (⟨_, heq⟩ | ⟨_, heq⟩)⟩ |
    ⟨issue, hres, _, hchk, _, heq⟩
  · rw [heq] at h; simp at h
  · rw [heq] at h; simp at h
  · rw [heq] at h ⊢
    simp at h
    obtain ⟨hi, ht⟩ := h
    subst hi; subst ht
    exact check_after_add _ _ _
  · rw [heq] at h ⊢
    simp at h
    obtain ⟨hi, ht⟩ := h
    subst hi; subst ht
    exact check_after_add _ _ _

theorem processRefs_commentsLe (optId : String) (items : List ItemData) (pr : PRData)
    (w : World) (rs : List String) :
    commentsLe w (processRefs optId items pr w rs).1 := by
  induction rs generalizing w with
  | nil => exact commentsLe_refl w
  | cons r rs ih =>
    simp only [processRefs]
    exact commentsLe_trans (processRef_commentsLe optId items pr w r) (ih _)

theorem processRefs_gated {optId : String} {items : List ItemData} {pr : PRData}
    {w : World} {rs : List String} {i t : String}
    (hc : check_comment_exists w i t = true) :
    Effect.addComment i t ∉ (processRefs optId items pr w rs).2 := by
  induction rs generalizing w with
  | nil => simp [processRefs]
  | cons r rs ih =>
    simp only [processRefs]
    intro h
    rw [List.mem_append] at h
    rcases h with h | h
    · exact processRef_gated hc h
    · exact ih (check_mono hc (processRef_commentsLe optId items pr w r)) h

theorem processRefs_comment_recorded {optId : String} {items : List ItemData}
    {pr : PRData} {w : World} {rs : List String} {i t : String}
    (h : Effect.addComment i t ∈ (processRefs optId items pr w rs).2) :
    check_comment_exists (processRefs optId items pr w rs).1 i t = true := by
  induction rs generalizing w with
  | nil => simp [processRefs] at h
  | cons r rs ih =>
    simp only [processRefs] at h ⊢
    rw [List.mem_append] at h
    rcases h with h | h
    · exact check_mono (processRef_comment_recorded h)
        (processRefs_commentsLe optId items pr _ rs)
    · exact ih h

theorem processPRs_commentsLe (optId : String) (items : List ItemData)
    (w : World) (prs : List PRData) :
    commentsLe w (processPRs optId items w prs).1 := by
  induction prs generalizing w with
  | nil => exact commentsLe_refl w
  | cons pr prs ih =>
    simp only [processPRs, processPR]
    exact commentsLe_trans (processRefs_commentsLe optId items pr w _) (ih _)

theorem processPRs_gated {optId : String} {items : List ItemData}
    {w : World} {prs : List PRData} {i t : String}
    (hc : check_comment_exists w i t = true) :
    Effect.addComment i t ∉ (processPRs optId items w prs).2 := by
  induction prs generalizing w with
  | nil => simp [processPRs]
  | cons pr prs ih =>
    simp only [processPRs, processPR]
    intro h
    rw [List.mem_append] at h
    rcases h with h | h
    · exact processRefs_gated hc h
    · exact ih (check_mono hc (processRefs_commentsLe optId items pr w _)) h

theorem processPRs_comment_recorded {optId : String} {items : List ItemData}
    {w : World} {prs : List PRData} {i t : String}
    (h : Effect.addComment i t ∈ (processPRs optId items w prs).2) :
    check_comment_exists (processPRs optId items w prs).1 i t = true := by
  induction prs generalizing w with
  | nil => simp [processPRs] at h
  | cons pr prs ih =>
    simp only [processPRs, processPR] at h ⊢
    rw [List.mem_append] at h
    rcases h with h | h
    · exact check_mono (processRefs_comment_recorded h)
        (processPRs_commentsLe optId items _ prs)
    · exact ih h

/-- A full run never posts a comment whose gate was already triggered
at its start. -/
theorem notify_gated {w : World} {i t : String}
    (hc : check_comment_exists w i t = true) :
    Effect.addComment i t ∉ (notify_change_status w).2 := by
  unfold notify_change_status
  split
  · simp
  · split
    · simp
    · split
      · simp
      · split
        · simp
        · exact processPRs_gated hc

/-- After a full run, every comment the run posted triggers the gate
in the run's final world. -/
theorem notify_comment_recorded {w : World} {i t : String}
    (h : Effect.addComment i t ∈ (notify_change_status w).2) :
    check_comment_exists (notify_change_status w).1 i t = true := by
  unfold notify_change_status at h ⊢
  revert h
  split
  · simp
  · split
    · simp
    · split
      · simp
      · split
        · simp
        · exact processPRs_comment_recorded

/-! ## Live-state independence

src/main.py never calls `get_issue_state` between its gates and its
mutations, so the run's behaviour cannot depend on the
live-state-at-action field of the world. -/

theorem check_setLive (w : World) (f : String → String) (i t : String) :
    check_comment_exists (setLive w f) i t = check_comment_exists w i t := rfl

theorem applyEffect_setLive (w : World) (f : String → String) (e : Effect) :
    applyEffect (setLive w f) e = setLive (applyEffect w e) f := by
  cases e with
  | addComment i b => rfl
  | updateStatus itemId o =>
    dsimp only [applyEffect, setLive]
    cases hm : (w.items.find? (fun it => it.id == itemId)).bind ItemData.content with
    | none => by_cases h : w.updateResult itemId = true <;> simp [h, hm]
    | some c => by_cases h : w.updateResult itemId = true <;> simp [h, hm]

theorem setLive_resolveIssue (w : World) (f : String → String) :
    (setLive w f).resolveIssue = w.resolveIssue := rfl

theorem setLive_issueStatus (w : World) (f : String → String) :
    (setLive w f).issueStatus = w.issueStatus := rfl

theorem setLive_updateResult (w : World) (f : String → String) :
    (setLive w f).updateResult = w.updateResult := rfl

theorem setLive_mergedPRs (w : World) (f : String → String) :
    (setLive w f).mergedPRs = w.mergedPRs := rfl

theorem setLive_projectId (w : World) (f : String → String) :
    (setLive w f).projectId = w.projectId := rfl

theorem setLive_statusFieldId (w : World) (f : String → String) :
    (setLive w f).statusFieldId = w.statusFieldId := rfl

theorem setLive_statusOptionId (w : World) (f : String → String) :
    (setLive w f).statusOptionId = w.statusOptionId := rfl

theorem setLive_items (w : World) (f : String → String) :
    (setLive w f).items = w.items := rfl

theorem processRef_setLive (optId : String) (items : List ItemData) (pr : PRData)
    (w : World) (f : String → String) (ref : String) :
    processRef optId items pr (setLive w f) ref =
      (setLive (processRef optId items pr w ref).1 f,
       (processRef optId items pr w ref).2) := by
  cases hres : w.resolveIssue ref with
  | none => simp [processRef, setLive_resolveIssue, hres]
  | some issue =>
    by_cases hst : issue.state = "OPEN"
    · by_cases hchk : check_comment_exists w issue.id (commentText pr.number pr.url) = true
      · simp [processRef, setLive_resolveIssue, check_setLive, hres, hst, hchk]
      · by_cases hqa : w.issueStatus issue.id = some "QA Testing"
        · simp [processRef, setLive_resolveIssue, check_setLive, setLive_issueStatus,
            hres, hst, hchk, hqa, applyEffect_setLive]
        · cases hfind : findMatchingItem items issue.id with
          | none =>
            simp [processRef, setLive_resolveIssue, check_setLive, setLive_issueStatus,
              hres, hst, hchk, hqa, hfind]
          | some it =>
            by_cases hup : w.updateResult it.id = true
            · simp [processRef, setLive_resolveIssue, check_setLive, setLive_issueStatus,
                setLive_updateResult, hres, hst, hchk, hqa, hfind, hup, applyEffect_setLive]
            · simp [processRef, setLive_resolveIssue, check_setLive, setLive_issueStatus,
                setLive_updateResult, hres, hst, hchk, hqa, hfind, hup, applyEffect_setLive]
    · simp [processRef, setLive_resolveIssue, hres, hst]

theorem processRefs_setLive (optId : String) (items : List ItemData) (pr : PRData)
    (w : World) (f : String → String) (rs : List String) :
    processRefs optId items pr (setLive w f) rs =
      (setLive (processRefs optId items pr w rs).1 f,
       (processRefs optId items pr w rs).2) := by
  induction rs generalizing w with
  | nil => rfl
  | cons r rs ih =>
    simp only [processRefs, processRef_setLive, ih]

theorem processPRs_setLive (optId : String) (items : List ItemData)
    (w : World) (f : String → String) (prs : List PRData) :
    processPRs optId items (setLive w f) prs =
      (setLive (processPRs optId items w prs).1 f,
       (processPRs optId items w prs).2) := by
  induction prs generalizing w with
  | nil => rfl
  | cons pr prs ih =>
    simp only [processPRs, processPR, processRefs_setLive, ih]

/-- A full run is invariant under any change to the
live-state-at-action function: the code performs no second state
read. -/
theorem notify_setLive (w : World) (f : String → String) :
    notify_change_status (setLive w f) =
      (setLive (notify_change_status w).1 f, (notify_change_status w).2) := by
  unfold notify_change_status
  rw [setLive_mergedPRs, setLive_projectId, setLive_statusFieldId,
    setLive_statusOptionId, setLive_items]
  split
  · rfl
  · cases w.projectId with
    | none => rfl
    | some p =>
      cases w.statusFieldId with
      | none => rfl
      | some sf =>
        cases w.statusOptionId with
        | none => rfl
        | some optId => exact processPRs_setLive optId w.items w f w.mergedPRs

/-! ## The claims -/

/-- Claim C1, counterexample.  In a world where the resolution read
reported issue Q10 OPEN but its live state at the point of action is
CLOSED, the run still issues the status mutation and posts the
comment: the claimed re-confirmation step does not exist, and a
CLOSED live state does not prevent the mutation or the comment. -/
theorem c1_closed_at_action_still_mutated :
    (wBase.resolveIssue "#10").map IssueData.state = some "OPEN" ∧
    wBase.liveState "Q10" = "CLOSED" ∧
    Effect.updateStatus "I10" "O" ∈ (notify_change_status wBase).2 ∧
    Effect.addComment "Q10" (commentText 42 "u42") ∈ (notify_change_status wBase).2 := by
  decide

/-- Claim C1, amended.  The reconciler checks the issue's open/closed
state exactly once, using the state captured by the initial
resolution: a reference whose resolved state is not OPEN produces no
mutation and no comment; and the run's effects are invariant under any
change to the live-state-at-action function, because no re-confirming
read is performed before mutating. -/
theorem c1_state_gate_resolution_only (w : World) (f : String → String)
    (optId : String) (items : List ItemData) (pr : PRData) (ref : String)
    (issue : IssueData)
    (h1 : w.resolveIssue ref = some issue) (h2 : issue.state ≠ "OPEN") :
    (notify_change_status (setLive w f)).2 = (notify_change_status w).2 ∧
    processRef optId items pr w ref = (w, []) := by
  constructor
  · rw [notify_setLive]
  · simp [processRef, h1, h2]

/-- Claim C1, witness for the amended theorem: a reference resolving
to the CLOSED issue Q11 is skipped with no effects, and replacing the
live-state function changes nothing. -/
theorem c1_state_gate_resolution_only_witness :
    ((notify_change_status (setLive wClosed fOpen)).2 = (notify_change_status wClosed).2 ∧
     processRef "O" [item10] pr42 wClosed "#11" = (wClosed, [])) ∧
    wClosed.resolveIssue "#11" = some issue11 ∧ issue11.state ≠ "OPEN" :=
  ⟨c1_state_gate_resolution_only wClosed fOpen "O" [item10] pr42 "#11" issue11
     (by decide) (by decide), by decide, by decide⟩

/-- Claim C2.  With the dry-run flag set, a full run still issues the
status mutation and posts the comment: src/main.py:144-145 only logs
"DRY RUN MODE ON!" and calls notify_change_status unconditionally, so
the flag suppresses no side-effecting call. -/
theorem c2_dry_run_does_not_suppress_effects :
    wDry.dryRun = true ∧
    (mainRun wDry).2 =
      [Effect.updateStatus "I10" "O", Effect.addComment "Q10" (commentText 42 "u42")] := by
  decide

/-- Claim C3.  Running the reconciler twice in succession with no
intervening external change never produces a second comment for the
same (issue, PR) pair: any comment posted by the first run triggers
the duplicate-comment gate of the second run (substring containment of
the PR-specific template against each full existing body), and a
triggered gate suppresses the comment for the pair within a whole
run. -/
theorem c3_no_second_comment_for_pair (w : World) (i t : String) :
    (Effect.addComment i t ∈ (notify_change_status w).2 →
      Effect.addComment i t ∉ (notify_change_status ((notify_change_status w).1)).2) ∧
    (check_comment_exists w i t = true →
      Effect.addComment i t ∉ (notify_change_status w).2) :=
  ⟨fun h => notify_gated (notify_comment_recorded h), fun hc => notify_gated hc⟩

/-- Claim C3, witness: the first run on the base world posts the
comment for (Q10, PR #42); the second run posts it again in no case. -/
theorem c3_no_second_comment_for_pair_witness :
    Effect.addComment "Q10" (commentText 42 "u42") ∈ (notify_change_status wBase).2 ∧
    Effect.addComment "Q10" (commentText 42 "u42") ∉
      (notify_change_status ((notify_change_status wBase).1)).2 :=
  ⟨by decide,
   (c3_no_second_comment_for_pair wBase "Q10" (commentText 42 "u42")).1 (by decide)⟩

/-- Claim C4.  The same-org shape repo#N is rejected at the parsing
step of resolve_issue_reference — even under a lookup that finds every
issue, "repo#8" resolves to none, because the anchored regex has no
repo-only alternative — while the bare shape #N does default both org
and repo to the running repository's, and org/repo#N parses as
written. -/
theorem c4_same_org_reference_rejected_at_parse :
    resolve_issue_reference alwaysFoundLookup "emily-lambrou"
      "qatesting_prs_opentickets" "repo#8" = none ∧
    resolve_issue_reference_parse "emily-lambrou"
      "qatesting_prs_opentickets" "repo#8" = none ∧
    resolve_issue_reference_parse "emily-lambrou"
      "qatesting_prs_opentickets" "#7" =
      some ("emily-lambrou", "qatesting_prs_opentickets", 7) ∧
    resolve_issue_reference alwaysFoundLookup "emily-lambrou"
      "qatesting_prs_opentickets" "#7" = some ⟨"X", 7, "OPEN"⟩ ∧
    resolve_issue_reference_parse "emily-lambrou"
      "qatesting_prs_opentickets" "org/repo#9" = some ("org", "repo", 9) := by
  decide

/-- Claim C5.  The extractor matches org/repo#N, then repo#N, then #N
(alternatives in priority order, non-overlapping, leftmost), returns
matches in order of first appearance with duplicates preserved, and an
empty sequence when nothing matches; the spec's own vector "fixes
org/repo#9 and repo#8 and #7" extracts exactly those three tokens in
order. -/
theorem c5_extract_reference_precedence :
    extract_referenced_issues_from_text "fixes org/repo#9 and repo#8 and #7" =
      ["org/repo#9", "repo#8", "#7"] ∧
    extract_referenced_issues_from_text "no issue references" = [] ∧
    extract_referenced_issues_from_text "see #7 and #7" = ["#7", "#7"] := by
  decide

/-- Claim C6, counterexample.  A transport failure during
get_issue_comments is not treated as empty data: it propagates as an
uncaught exception (the function body has no try/except), so it is
fatal to the run rather than "never fatal". -/
theorem c6_comments_transport_failure_fatal :
    get_issue_comments_call [none] = Except.error () ∧
    get_issue_comments_call [none] ≠ Except.ok [] :=
  ⟨rfl, fun h => nomatch h⟩

/-- Claim C6, amended.  Transport failures are caught only in some
calls: get_recent_merged_prs_in_dev catches them and returns the empty
list, discarding even the pages already collected (a GraphQL errors
payload instead terminates the loop early, keeping collected pages),
while get_issue_comments and get_project_id_by_title propagate the
failure as an uncaught exception, which aborts the run. -/
theorem c6_transport_failure_partially_caught :
    (∀ (rest : List (GqlResp (List PRData))) (acc : List PRData),
      mergedPRsLoop (GqlResp.transport :: rest) acc = []) ∧
    (∀ (rest : List (GqlResp (List PRData))) (acc : List PRData),
      mergedPRsLoop (GqlResp.gqlErrors :: rest) acc = acc) ∧
    (∀ (rest : List (Option (List CommentData × Bool))) (acc : List CommentData),
      commentsLoop (none :: rest) acc = Except.error ()) ∧
    (∀ pt : String, get_project_id_by_title_call none pt = Except.error ()) :=
  ⟨fun _ _ => rfl, fun _ _ => rfl, fun _ _ => rfl, fun _ => rfl⟩

/-- Claim C7.  For a pair whose current status already equals
"QA Testing" (resolution state OPEN, duplicate-comment gate passed),
the processing's effects are exactly one comment call and no status
mutation: the notification is PR-triggered, not status-triggered. -/
theorem c7_already_on_target_comment_only (optId : String) (items : List ItemData)
    (pr : PRData) (w : World) (ref : String) (issue : IssueData)
    (h1 : w.resolveIssue ref = some issue)
    (h2 : issue.state = "OPEN")
    (h3 : check_comment_exists w issue.id (commentText pr.number pr.url) = false)
    (h4 : w.issueStatus issue.id = some "QA Testing") :
    (processRef optId items pr w ref).2 =
      [Effect.addComment issue.id (commentText pr.number pr.url)] ∧
    ∀ i o, Effect.updateStatus i o ∉ (processRef optId items pr w ref).2 := by
  have heq : (processRef optId items pr w ref).2 =
      [Effect.addComment issue.id (commentText pr.number pr.url)] := by
    simp [processRef, h1, h2, h3, h4]
  exact ⟨heq, by simp [heq]⟩

/-- Claim C7, witness: issue Q10 already in "QA Testing" gets exactly
the comment for PR #42 and no mutation. -/
theorem c7_already_on_target_comment_only_witness :
    (processRef "O" [item10] pr42 wQA "#10").2 =
      [Effect.addComment "Q10" (commentText 42 "u42")] ∧
    ∀ i o, Effect.updateStatus i o ∉ (processRef "O" [item10] pr42 wQA "#10").2 :=
  c7_already_on_target_comment_only "O" [item10] pr42 wQA "#10" issue10
    (by decide) (by decide) (by decide) (by decide)

/-- Claim C8.  On the mutation path, a falsy mutation result yields
exactly the mutation call and no comment, and the comment is posted
precisely when the mutation returned a truthy confirming result. -/
theorem c8_comment_only_on_confirmed_mutation (optId : String) (items : List ItemData)
    (pr : PRData) (w : World) (ref : String) (issue : IssueData) (it : ItemData)
    (h1 : w.resolveIssue ref = some issue)
    (h2 : issue.state = "OPEN")
    (h3 : check_comment_exists w issue.id (commentText pr.number pr.url) = false)
    (h4 : w.issueStatus issue.id ≠ some "QA Testing")
    (h5 : findMatchingItem items issue.id = some it) :
    (w.updateResult it.id = false →
      (processRef optId items pr w ref).2 = [Effect.updateStatus it.id optId]) ∧
    (w.updateResult it.id = true →
      (processRef optId items pr w ref).2 =
        [Effect.updateStatus it.id optId,
         Effect.addComment issue.id (commentText pr.number pr.url)]) := by
  constructor
  · intro hup
    simp [processRef, h1, h2, h3, h4, h5, hup]
  · intro hup
    simp [processRef, h1, h2, h3, h4, h5, hup]

/-- Claim C8, witness: with a failing mutation, the effects for the
pair are exactly the mutation call — no comment. -/
theorem c8_comment_only_on_confirmed_mutation_witness :
    (processRef "O" [item10] pr42 wFail "#10").2 = [Effect.updateStatus "I10" "O"] :=
  (c8_comment_only_on_confirmed_mutation "O" [item10] pr42 wFail "#10" issue10 item10
    (by decide) (by decide) (by decide) (by decide) (by decide)).1 (by decide)

/-- Claim C9.  The pagination cursor walker, on a synthetic paged
source of 3 pages of sizes 50/50/7, returns exactly the 107 nodes in
page order and issues exactly 3 fetch calls. -/
theorem c9_pagination_walker_107_nodes_3_calls :
    paginate syntheticFetch 10 = (List.range 107, 3) := by
  decide

/-- Claim C10, counterexample.  One run, one merged PR whose body
references issue #10 twice, and a mutation that returns no confirming
payload: the single (PR #42, issue Q10) pair receives two
status-mutation calls in the run, because the failed first mutation
posts no gating comment and the second occurrence of the reference
repeats the whole path. -/
theorem c10_two_mutations_on_duplicate_reference :
    wC10.mergedPRs = [pr1010] ∧
    (wC10.resolveIssue "#10").map IssueData.id = some "Q10" ∧
    (notify_change_status wC10).2 =
      [Effect.updateStatus "I10" "O", Effect.updateStatus "I10" "O"] := by
  decide

/-- Claim C10, amended.  Each processing of one referenced-issue
occurrence issues at most one status-mutation call, and any mutation
issued targets the first board item whose wrapped issue id equals the
resolved issue's id (the scan stops at the first match even when
several items wrap the same issue), with the resolved option id. -/
theorem c10_at_most_one_mutation_per_occurrence (optId : String)
    (items : List ItemData) (pr : PRData) (w : World) (ref : String) :
    ((processRef optId items pr w ref).2.filter isUpdateEffect).length ≤ 1 ∧
    (∀ i o, Effect.updateStatus i o ∈ (processRef optId items pr w ref).2 →
      ∃ issue it, w.resolveIssue ref = some issue ∧
        findMatchingItem items issue.id = some it ∧ i = it.id ∧ o = optId) := by
  rcases processRef_cases optId items pr w ref with ⟨heq, _⟩ |
    ⟨issue, it, hres, _, _, _, hfind, (⟨_, heq⟩ | ⟨_, heq⟩)⟩ |
    ⟨issue, _, _, _, _, heq⟩ <;> rw [heq]
  · constructor
    · simp
    · intro i o h
      simp at h
  · constructor
    · simp [isUpdateEffect]
    · intro i o h
      simp at h
      obtain ⟨hi, ho⟩ := h
      exact ⟨issue, it, hres, hfind, hi, ho⟩
  · constructor
    · simp [isUpdateEffect]
    · intro i o h
      simp at h
      obtain ⟨hi, ho⟩ := h
      exact ⟨issue, it, hres, hfind, hi, ho⟩
  · constructor
    · simp [isUpdateEffect]
    · intro i o h
      simp at h

/-- Claim C10, witness: with two board items both wrapping issue Q10,
the single mutation issued targets the first of them ("I10"). -/
theorem c10_at_most_one_mutation_per_occurrence_witness :
    (((processRef "O" itemsMulti pr42 wMulti "#10").2.filter isUpdateEffect).length ≤ 1) ∧
    (∃ issue it, wMulti.resolveIssue "#10" = some issue ∧
      findMatchingItem itemsMulti issue.id = some it ∧ "I10" = it.id ∧ "O" = "O") :=
  ⟨(c10_at_most_one_mutation_per_occurrence "O" itemsMulti pr42 wMulti "#10").1,
   (c10_at_most_one_mutation_per_occurrence "O" itemsMulti pr42 wMulti "#10").2
     "I10" "O" (by decide)⟩
